import Mathlib

/-!
Verification of the cogi-quant time-series analytics engine.

The definitions below are a shallow embedding of the Python source:
`cogi_quant/objects/pairedset.py`, `cogi_quant/processing/series.py` and
`cogi_quant/mat/technicals.py`.  Series cells that may be missing (NaN in
pandas) are modelled as `Option ℚ`; machine floats are modelled as exact
rationals.  Python exceptions are modelled with `Except String`; a Python
function that can return `None` as a sentinel returns an `Option` or a
dedicated result type.
-/

namespace CogiQuant

/-- Decidable equality for `Except`, needed to evaluate the embedded
fallible operations on concrete inputs. -/
instance instDecEqExcept {ε α : Type} [DecidableEq ε] [DecidableEq α] :
    DecidableEq (Except ε α) := fun a b =>
  match a, b with
  | Except.error e1, Except.error e2 =>
      if h : e1 = e2 then Decidable.isTrue (congrArg Except.error h)
      else Decidable.isFalse (fun hc => h (Except.error.inj hc))
  | Except.ok a1, Except.ok a2 =>
      if h : a1 = a2 then Decidable.isTrue (congrArg Except.ok h)
      else Decidable.isFalse (fun hc => h (Except.ok.inj hc))
  | Except.error _, Except.ok _ => Decidable.isFalse (fun hc => Except.noConfusion hc)
  | Except.ok _, Except.error _ => Decidable.isFalse (fun hc => Except.noConfusion hc)

/-- The Paired Series Container (`PairedSet` in `pairedset.py`): an ordered
key array `X` and an ordered value array `Y`. -/
structure PairedSet (K V : Type) where
  X : List K
  Y : List V
deriving DecidableEq

/-- The Native Indexed Series (a `pd.Series`): a value sequence addressed by
an ordered key sequence.  The two list fields model `series.index` and the
value array; a length mismatch is structurally possible in this model so the
defensive boundary check of `series_to_pairedset` can be expressed. -/
structure Series (K V : Type) where
  index : List K
  values : List V
deriving DecidableEq

/-- `PairedSet.__init__` (pairedset.py lines 7-13): raises
`Exception("Arrays differ in length.")` when the two arrays differ in
length, otherwise stores both arrays. -/
def PairedSet.mkE {K V : Type} (indexing_array : List K) (value_array : List V) :
    Except String (PairedSet K V) :=
  if indexing_array.length ≠ value_array.length then
    Except.error "Arrays differ in length."
  else
    Except.ok ⟨indexing_array, value_array⟩

/-- `PairedSet.to_series` (pairedset.py lines 127-145): builds
`pd.Series(self.Y, index=pd.Index(self.X))`, i.e. the native series whose
index is `X` and whose values are `Y`, both taken verbatim. -/
def PairedSet.to_series {K V : Type} (p : PairedSet K V) : Series K V :=
  ⟨p.X, p.Y⟩

/-- `series_to_pairedset` (series.py lines 108-143): raises
`IndexError("Empty Series.")` on an empty series, raises
`Exception("Index-Value match error.")` when index and value counts diverge,
and otherwise constructs `PairedSet(index, values)`. -/
def series_to_pairedset {K V : Type} (series : Series K V) :
    Except String (PairedSet K V) :=
  if series.values.length = 0 then Except.error "Empty Series."
  else if series.index.length ≠ series.values.length then
    Except.error "Index-Value match error."
  else PairedSet.mkE series.index series.values

/-- Python/numpy positional indexing on a 1-D array: a negative position in
`[-len, -1]` wraps around to the end; any other out-of-bounds position is an
IndexError, modelled as `none`. -/
def pyIndex {α : Type} (l : List α) (i : ℤ) : Option α :=
  if 0 ≤ i then l.get? i.toNat
  else if -(l.length : ℤ) ≤ i then l.get? (l.length - (-i).toNat)
  else none

/-- `PairedSet.get_pair_at_index` (pairedset.py lines 41-56): evaluates
`np.array([self.X[index], self.Y[index]])` inside a `try`; the `except`
branch constructs `Exception("Index out of range.")` but never raises it,
so on an IndexError the function returns Python `None` (here `none`).
Negative positions wrap around per numpy indexing. -/
def PairedSet.get_pair_at_index {K V : Type} (p : PairedSet K V) (index : ℤ) :
    Option (K × V) :=
  match pyIndex p.X index, pyIndex p.Y index with
  | some x, some y => some (x, y)
  | _, _ => none

/-- `PairedSet.get_corresponding_Yvalue` (pairedset.py lines 107-125): the
guard `if self.X==None or self.Y==None` compares a numpy array elementwise
with `None`; taking the truth value of the resulting boolean array raises
`ValueError` whenever it has more than one element.  When no error is
raised, the loop body is a bare `pass`, so the function always falls off the
end and returns Python `None` (here `Except.ok none`), regardless of the
key searched for. -/
def PairedSet.get_corresponding_Yvalue {K V : Type} (p : PairedSet K V)
    (X_value : K) : Except String (Option V) :=
  if 2 ≤ p.X.length ∨ 2 ≤ p.Y.length then
    Except.error "ValueError: truth value of an array with more than one element is ambiguous"
  else Except.ok none

/-- `PairedSet.append_paired_set` (pairedset.py lines 58-73): appends the
other containers key and value arrays after this containers arrays. -/
def PairedSet.append_paired_set {K V : Type} (self other : PairedSet K V) :
    PairedSet K V :=
  ⟨self.X ++ other.X, self.Y ++ other.Y⟩

/-- The two documented argument shapes of `append_single_pair`: a single
1x1 `PairedSet`, or two scalar values `(x, y)`. -/
inductive AppendArg (K V : Type) where
  | ps (p : PairedSet K V)
  | kv (x : K) (y : V)
deriving DecidableEq

/-- `PairedSet.append_single_pair` (pairedset.py lines 75-105).  For a single
`PairedSet` argument the first `if` performs the append, after which the
second `if` (testing `len(args)==2`) is false and its `else` raises
`TypeError` — the mutation has already happened.  For two scalar values the
second branch evaluates `PairedSet([args[0]], args[1])`, whose constructor
calls `len` on the scalar `args[1]` and raises `TypeError` before any
mutation.  The result is the containers final state paired with the raised
exception, if any. -/
def PairedSet.append_single_pair {K V : Type} (self : PairedSet K V)
    (args : AppendArg K V) : PairedSet K V × Option String :=
  match args with
  | AppendArg.ps p =>
      (self.append_paired_set p, some "TypeError: Expected PairedSet or two values.")
  | AppendArg.kv _ _ =>
      (self, some "TypeError: object of type int has no len()")

/-- `series.mean(skipna=True)`: arithmetic mean over the non-missing cells;
`none` (NaN) when every cell is missing. -/
def seriesMean (s : List (Option ℚ)) : Option ℚ :=
  let vals := s.filterMap id
  if vals.length = 0 then none else some (vals.sum / (vals.length : ℚ))

/-- Helper for `Series.ffill`: carries the most recent non-missing cell
forward. -/
def ffillAux : Option ℚ → List (Option ℚ) → List (Option ℚ)
  | _, [] => []
  | prev, none :: rest => prev :: ffillAux prev rest
  | _, some v :: rest => some v :: ffillAux (some v) rest

/-- `series.ffill()`: each missing cell takes the nearest preceding
non-missing value; leading missing cells stay missing. -/
def ffillList (l : List (Option ℚ)) : List (Option ℚ) := ffillAux none l

/-- The two series objects alive inside `fill` (series.py lines 40-50):
the callers input series and the local `series_copy`.  Every write in the
function body targets `series_copy`; the input is only read. -/
structure FillEnv where
  input : List (Option ℚ)
  copy : List (Option ℚ)
deriving DecidableEq

/-- The front-fill tail of `fill` (series.py lines 47-50), reached both for
`ffill` mode and for `bfill` mode with a non-missing last cell: on an empty
series `iloc[0]` raises IndexError; otherwise, when the first cell is
missing it is overwritten with the series mean, and `series_copy.ffill()`
is returned. -/
def ffillPhase (series series_copy : List (Option ℚ)) (mean_series : Option ℚ) :
    FillEnv × Except String (List (Option ℚ)) :=
  match series_copy with
  | [] => (⟨series, []⟩, Except.error "IndexError: single positional indexer is out-of-bounds")
  | c0 :: rest =>
      let copy2 := if c0 = none then mean_series :: rest else c0 :: rest
      (⟨series, copy2⟩, Except.ok (ffillList copy2))

/-- `fill` (series.py lines 22-50), traced statement by statement.
`series_copy = series.copy()` makes a fresh equal-valued object and
`mean_series` is computed from the input.  In `bfill` mode: reading
`iloc[-1]` of an empty series raises IndexError; when the last cell is
missing, the assignment `series_copy.ilioc[-1] = mean_series` raises
AttributeError (`ilioc` is not an attribute of a pandas Series); when the
last cell is present the branch has no `return` at its own level, so
control falls through to the front-fill code.  Any other mode goes straight
to the front-fill code.  The result is the final state of both series
objects paired with the returned series or raised exception. -/
def fill_steps (series : List (Option ℚ)) (filling_type : String) :
    FillEnv × Except String (List (Option ℚ)) :=
  let series_copy := series
  let mean_series := seriesMean series
  if filling_type = "bfill" then
    match series_copy.getLast? with
    | none =>
        (⟨series, series_copy⟩, Except.error "IndexError: single positional indexer is out-of-bounds")
    | some lastCell =>
        if lastCell = none then
          (⟨series, series_copy⟩, Except.error "AttributeError: Series object has no attribute ilioc")
        else ffillPhase series series_copy mean_series
  else ffillPhase series series_copy mean_series

/-- The value returned (or exception raised) by `fill`. -/
def fill (series : List (Option ℚ)) (filling_type : String) :
    Except String (List (Option ℚ)) :=
  (fill_steps series filling_type).2

/-- Collects the cells of a window when all of them are present. -/
def allSome : List (Option ℚ) → Option (List ℚ)
  | [] => some []
  | none :: _ => none
  | some v :: rest => (allSome rest).map (fun l => v :: l)

/-- The window of `w` consecutive cells ending at position `i`. -/
def windowSlice (w i : ℕ) (l : List (Option ℚ)) : List (Option ℚ) :=
  (l.drop (i + 1 - w)).take w

/-- Mean over the window ending at position `i`; missing when any cell of
the window is missing. -/
def windowMean (w i : ℕ) (l : List (Option ℚ)) : Option ℚ :=
  match allSome (windowSlice w i l) with
  | some vals => some (vals.sum / (w : ℚ))
  | none => none

/-- `series.rolling(window).mean()` with the pandas default
`min_periods = window`: position `i` is missing while fewer than `window`
cells of history exist or when any cell of its window is missing, and is
the arithmetic mean of the window otherwise. -/
def rollingMean (w : ℕ) (l : List (Option ℚ)) : List (Option ℚ) :=
  (List.range l.length).map (fun i => if i + 1 < w then none else windowMean w i l)

/-- `simple_moving_average` on a native series (technicals.py lines 42-45):
`fill(series=data, filling_type=ffill)` followed by
`rolling(window).mean()`. -/
def simple_moving_average_series (data : List (Option ℚ)) (window : ℕ) :
    Except String (List (Option ℚ)) :=
  match fill data "ffill" with
  | Except.ok struc => Except.ok (rollingMean window struc)
  | Except.error e => Except.error e

/-- `simple_moving_average` on a `PairedSet` (technicals.py lines 46-49):
`data.npfloat_values()` (a dtype coercion leaving the numeric values
unchanged in this model), then `data.to_series()`, then
`series_to_pairedset(struc.rolling(window).mean())`.  No fill is applied on
this branch. -/
def simple_moving_average_ps {K : Type} (data : PairedSet K (Option ℚ))
    (window : ℕ) : Except String (PairedSet K (Option ℚ)) :=
  let struc := data.to_series
  series_to_pairedset ⟨struc.index, rollingMean window struc.values⟩

/-- The possible outcomes of `normalize_series`: the Python `None` sentinel,
a returned series of cells, or a raised exception. -/
inductive NormResult where
  | pyNone
  | ok (cells : List (Option ℚ))
  | raised (msg : String)
deriving DecidableEq

/-- Float division, with division by zero yielding NaN or infinity,
modelled as a missing cell. -/
def safeDiv (x y : ℚ) : Option ℚ := if y = 0 then none else some (x / y)

/-- The minmax path of `normalize_series` (series.py lines 92-103): an
empty series returns Python `None`; otherwise every cell becomes
`(v - min) / (max - min)`.  Pandas raises nothing on a zero denominator —
elementwise float division simply produces NaN/inf cells — so the `except`
clause never fires on numeric data.  (The z-score branch needs irrational
arithmetic and is not modelled; the claims under verification concern only
the empty and minmax paths.) -/
def normalize_series_minmax (series : List ℚ) : NormResult :=
  match series with
  | [] => NormResult.pyNone
  | a :: rest =>
      let mn := rest.foldl min a
      let mx := rest.foldl max a
      NormResult.ok ((a :: rest).map (fun v => safeDiv (v - mn) (mx - mn)))

/-- Recursive step of `ewm(span=..., adjust=False).mean()`:
`ema[i] = alpha * data[i] + (1 - alpha) * ema[i-1]`. -/
def ewmRec (alpha : ℚ) : ℚ → List ℚ → List ℚ
  | _, [] => []
  | prev, a :: rest =>
      let cur := alpha * a + (1 - alpha) * prev
      cur :: ewmRec alpha cur rest

/-- `data.ewm(span=span, adjust=False).mean()` on a NaN-free series:
`alpha = 2 / (span + 1)`, seeded at the first data value. -/
def ewmMean (span : ℕ) : List ℚ → List ℚ
  | [] => []
  | a :: rest => a :: ewmRec (2 / ((span : ℚ) + 1)) a rest

/-- The three columns of the dataframe returned by `macd_all_info`. -/
structure MacdFrame where
  macd : List ℚ
  signal : List ℚ
  hist : List ℚ
deriving DecidableEq

/-- `macd_all_info` (technicals.py lines 138-184): the macd line is the fast
EMA minus the slow EMA, the signal line is the EMA of the macd line over
`signal_span`, and hist is the macd line minus the signal line. -/
def macd_all_info (data : List ℚ) (fast_period slow_period signal_span : ℕ) :
    MacdFrame :=
  let macd_line := List.zipWith (fun a b => a - b)
    (ewmMean fast_period data) (ewmMean slow_period data)
  let signal_line := ewmMean signal_span macd_line
  let hist := List.zipWith (fun a b => a - b) macd_line signal_line
  ⟨macd_line, signal_line, hist⟩

/-- `macd_signal` on a native series (technicals.py line 271): the source
calls `macd_all_info(data, fast_period=fast_period, slow_period=slow_period)`
without forwarding `signal_span`, so the signal column is computed with the
default span 9 regardless of the `signal_span` argument. -/
def macd_signal_series (data : List ℚ)
    (fast_period slow_period signal_span : ℕ) : List ℚ :=
  (macd_all_info data fast_period slow_period 9).signal

/-- `macd_hist` on a native series (technicals.py line 318): like
`macd_signal`, the call omits `signal_span`, so the hist column is computed
with the default span 9. -/
def macd_hist_series (data : List ℚ)
    (fast_period slow_period signal_span : ℕ) : List ℚ :=
  (macd_all_info data fast_period slow_period 9).hist

/-- `macd_signal` on a `PairedSet` (technicals.py lines 263-269): converts
to a series, calls `macd_all_info` forwarding all three periods, converts
the signal column back, and rewraps any exception as
`Exception("Paired Set object is invalid.")`. -/
def macd_signal_ps {K : Type} (data : PairedSet K ℚ)
    (fast_period slow_period signal_span : ℕ) :
    Except String (PairedSet K ℚ) :=
  let as_series := data.to_series
  match series_to_pairedset
      ⟨as_series.index,
       (macd_all_info as_series.values fast_period slow_period signal_span).signal⟩ with
  | Except.ok q => Except.ok q
  | Except.error _ => Except.error "Paired Set object is invalid."

/-- `macd_hist` on a `PairedSet` (technicals.py lines 307-316): same shape
as `macd_signal_ps` but returning the hist column. -/
def macd_hist_ps {K : Type} (data : PairedSet K ℚ)
    (fast_period slow_period signal_span : ℕ) :
    Except String (PairedSet K ℚ) :=
  let as_series := data.to_series
  match series_to_pairedset
      ⟨as_series.index,
       (macd_all_info as_series.values fast_period slow_period signal_span).hist⟩ with
  | Except.ok q => Except.ok q
  | Except.error _ => Except.error "Paired Set object is invalid."

/-! ## Helper lemmas -/

/-- `ewmRec` preserves length. -/
theorem ewmRec_length (alpha : ℚ) (prev : ℚ) (l : List ℚ) :
    (ewmRec alpha prev l).length = l.length := by
  induction l generalizing prev with
  | nil => rfl
  | cons a rest ih => simp [ewmRec, ih]

/-- `ewmMean` preserves length. -/
theorem ewmMean_length (span : ℕ) (l : List ℚ) :
    (ewmMean span l).length = l.length := by
  cases l with
  | nil => rfl
  | cons a rest => simp [ewmMean, ewmRec_length]

/-- Pointwise view of an elementwise difference of two lists. -/
theorem zipWith_sub_get? (l1 l2 : List ℚ) (i : ℕ)
    (h1 : i < l1.length) (h2 : i < l2.length) :
    (List.zipWith (fun a b => a - b) l1 l2).get? i =
      some (l1.getD i 0 - l2.getD i 0) := by
  induction l1 generalizing l2 i with
  | nil => simp at h1
  | cons a rest ih =>
      cases l2 with
      | nil => simp at h2
      | cons b rest2 =>
          cases i with
          | zero => simp [List.getD]
          | succ n =>
              simp only [List.zipWith_cons_cons, List.get?, List.getD_cons_succ]
              exact ih rest2 n (by simpa using h1) (by simpa using h2)

/-- The first component of `ffillPhase` keeps the input series intact. -/
theorem ffillPhase_input (s c : List (Option ℚ)) (m : Option ℚ) :
    (ffillPhase s c m).1.input = s := by
  unfold ffillPhase
  split <;> rfl

/-! ## Claim theorems -/

/-- C1 counterexample: for the equal-length pair of empty sequences the
container is constructed successfully, but converting to a native series
and back raises the empty-series error instead of reproducing the original
sequences, so the round-trip law as stated fails on empty inputs. -/
theorem roundtrip_fails_on_empty :
    PairedSet.mkE ([] : List ℤ) ([] : List ℚ) = Except.ok ⟨[], []⟩ ∧
    series_to_pairedset (PairedSet.to_series (⟨[], []⟩ : PairedSet ℤ ℚ)) =
      Except.error "Empty Series." ∧
    series_to_pairedset (PairedSet.to_series (⟨[], []⟩ : PairedSet ℤ ℚ)) ≠
      Except.ok ⟨[], []⟩ := by
  decide

/-- C1 (amended): for every pair of equal-length and nonempty key and value
sequences, constructing a `PairedSet`, converting to a native series with
`to_series`, and converting back with `series_to_pairedset` reproduces the
original key and value sequences exactly, in the same order. -/
theorem construct_series_roundtrip {K V : Type} (xs : List K) (ys : List V)
    (h : xs.length = ys.length) (hne : ys ≠ []) :
    PairedSet.mkE xs ys = Except.ok ⟨xs, ys⟩ ∧
    series_to_pairedset (PairedSet.to_series (⟨xs, ys⟩ : PairedSet K V)) =
      Except.ok ⟨xs, ys⟩ := by
  have h0 : ys.length ≠ 0 := by simpa [List.length_eq_zero] using hne
  constructor
  · simp [PairedSet.mkE, h]
  · simp [series_to_pairedset, PairedSet.to_series, PairedSet.mkE, h, h0]

/-- C1 witness: the round trip at the concrete container X=[1], Y=[5]. -/
theorem construct_series_roundtrip_witness :
    PairedSet.mkE [(1 : ℤ)] [(5 : ℚ)] = Except.ok ⟨[1], [5]⟩ ∧
    series_to_pairedset (PairedSet.to_series (⟨[1], [5]⟩ : PairedSet ℤ ℚ)) =
      Except.ok ⟨[1], [5]⟩ :=
  construct_series_roundtrip [1] [5] rfl (by decide)

/-- C2 counterexample: on the Paired Series Container input
X=[0,1,2], Y=[1, NaN, 3] with window 1, `simple_moving_average` returns a
container still holding the missing cell, whereas forward-fill cleaning
followed by the trailing mean would produce [1, 1, 3]; the container branch
therefore does not apply forward-fill cleaning first. -/
theorem sma_pairedset_skips_fill :
    simple_moving_average_ps
        (⟨[0, 1, 2], [some 1, none, some 3]⟩ : PairedSet ℤ (Option ℚ)) 1 =
      Except.ok ⟨[0, 1, 2], [some 1, none, some 3]⟩ ∧
    fill [some 1, none, some (3 : ℚ)] "ffill" =
      Except.ok [some 1, some 1, some 3] ∧
    rollingMean 1 [some 1, some 1, some (3 : ℚ)] = [some 1, some 1, some 3] ∧
    (Except.ok (⟨[0, 1, 2], [some 1, none, some 3]⟩ : PairedSet ℤ (Option ℚ)) :
        Except String (PairedSet ℤ (Option ℚ))) ≠
      Except.ok ⟨[0, 1, 2], [some 1, some 1, some 3]⟩ := by
  refine ⟨?_, ?_, ?_, by decide⟩
  · simp +decide [simple_moving_average_ps, PairedSet.to_series, series_to_pairedset,
      PairedSet.mkE, rollingMean, windowMean, windowSlice, allSome, List.range_succ]
  · simp +decide [fill, fill_steps, ffillPhase, seriesMean, ffillList, ffillAux]
  · simp +decide [rollingMean, windowMean, windowSlice, allSome, List.range_succ]

/-- C2 (amended): for every native series input, `simple_moving_average`
applies forward-fill cleaning and then the trailing arithmetic mean over
`window` consecutive cells ending at each position, with the first
`window - 1` positions of the result undefined; for every container input
it computes the same trailing mean directly on the raw (float-coerced)
values, without applying fill. -/
theorem sma_branch_characterization
    (data filled out : List (Option ℚ)) (w : ℕ) (hw : 1 ≤ w)
    (hf : fill data "ffill" = Except.ok filled)
    (ho : simple_moving_average_series data w = Except.ok out) :
    out.length = filled.length ∧
    (∀ i, i + 1 < w → i < filled.length → out[i]? = some none) ∧
    (∀ i, w ≤ i + 1 → i < filled.length →
      out[i]? = some (windowMean w i filled)) ∧
    (∀ p : PairedSet ℤ (Option ℚ),
      simple_moving_average_ps p w =
        series_to_pairedset ⟨p.X, rollingMean w p.Y⟩) := by
  have hout : out = rollingMean w filled := by
    unfold simple_moving_average_series at ho
    rw [hf] at ho
    exact (Except.ok.inj ho).symm
  subst hout
  refine ⟨by simp [rollingMean], ?_, ?_, fun p => rfl⟩
  · intro i hi hlen
    rw [rollingMean, List.getElem?_map, List.getElem?_range hlen]
    simp [hi]
  · intro i hw2 hlen
    rw [rollingMean, List.getElem?_map, List.getElem?_range hlen]
    simp [Nat.not_lt.mpr hw2]

/-- C2 witness: the concrete series [1, 2] with window 2; position 0 is
undefined and the characterization theorem applies. -/
theorem sma_branch_characterization_witness :
    fill [some 1, some (2 : ℚ)] "ffill" = Except.ok [some 1, some 2] ∧
    simple_moving_average_series [some 1, some (2 : ℚ)] 2 =
      Except.ok [none, some (3 / 2)] ∧
    ([none, some ((3 : ℚ) / 2)] : List (Option ℚ))[0]? = some none := by
  have h1 : fill [some 1, some (2 : ℚ)] "ffill" = Except.ok [some 1, some 2] := by
    simp +decide [fill, fill_steps, ffillPhase, seriesMean, ffillList, ffillAux]
  have h2 : simple_moving_average_series [some 1, some (2 : ℚ)] 2 =
      Except.ok [none, some (3 / 2)] := by
    simp +decide [simple_moving_average_series, fill, fill_steps, ffillPhase,
      seriesMean, ffillList, ffillAux, rollingMean, windowMean, windowSlice,
      allSome, List.range_succ]
    norm_num
  have h3 := sma_branch_characterization [some 1, some 2] [some 1, some 2]
    [none, some (3 / 2)] 2 (by decide) h1 h2
  exact ⟨h1, h2, h3.2.1 0 (by decide) (by decide)⟩

/-- C3: the native-series branches of `macd_signal` and `macd_hist` do not
forward `signal_span` to `macd_all_info`, so with fast=1, slow=2 and
signal_span=1 on the series [0, 1] they return the default-span columns
[0, 1/15] and [0, 4/15], while `macd_all_info` with those same three
parameters yields signal [0, 1/3] and hist [0, 0]. -/
theorem macd_accessors_drop_signal_span :
    macd_signal_series [0, 1] 1 2 1 = [0, 1 / 15] ∧
    (macd_all_info [0, 1] 1 2 1).signal = [0, 1 / 3] ∧
    macd_signal_series [0, 1] 1 2 1 ≠ (macd_all_info [0, 1] 1 2 1).signal ∧
    macd_hist_series [0, 1] 1 2 1 = [0, 4 / 15] ∧
    (macd_all_info [0, 1] 1 2 1).hist = [0, 0] ∧
    macd_hist_series [0, 1] 1 2 1 ≠ (macd_all_info [0, 1] 1 2 1).hist := by
  have h1 : macd_signal_series [0, 1] 1 2 1 = [0, 1 / 15] := by
    simp +decide [macd_signal_series, macd_all_info, ewmMean, ewmRec]
    norm_num
  have h2 : (macd_all_info [0, 1] 1 2 1).signal = [0, 1 / 3] := by
    simp +decide [macd_all_info, ewmMean, ewmRec]
    norm_num
  have h3 : macd_hist_series [0, 1] 1 2 1 = [0, 4 / 15] := by
    simp +decide [macd_hist_series, macd_all_info, ewmMean, ewmRec]
    norm_num
  have h4 : (macd_all_info [0, 1] 1 2 1).hist = [0, 0] := by
    simp +decide [macd_all_info, ewmMean, ewmRec]
    norm_num
  refine ⟨h1, h2, ?_, h3, h4, ?_⟩
  · rw [h1, h2]
    norm_num
  · rw [h3, h4]
    norm_num

/-- C4: `fill` in backward mode is broken both ways.  On [NaN, 1, 2]
(last cell present) the `bfill` branch has no return at its own level, so
the function falls through and forward-fills, seeding the first cell with
the mean 3/2 — a backward fill would give [1, 1, 2].  On [1, NaN] (last
cell missing) the assignment to the misspelled attribute `ilioc` raises
AttributeError instead of seeding the last cell with the mean. -/
theorem fill_backward_mode_broken :
    fill [none, some 1, some (2 : ℚ)] "bfill" =
      Except.ok [some (3 / 2), some 1, some 2] ∧
    fill [none, some 1, some (2 : ℚ)] "bfill" ≠
      Except.ok [some 1, some 1, some 2] ∧
    fill [some (1 : ℚ), none] "bfill" =
      Except.error "AttributeError: Series object has no attribute ilioc" := by
  have h1 : fill [none, some 1, some (2 : ℚ)] "bfill" =
      Except.ok [some (3 / 2), some 1, some 2] := by
    simp +decide [fill, fill_steps, ffillPhase, seriesMean, ffillList, ffillAux]
    norm_num
  refine ⟨h1, ?_, ?_⟩
  · rw [h1]
    intro hc
    have h2 := Except.ok.inj hc
    simp at h2
    exact absurd h2 (by norm_num)
  · simp +decide [fill, fill_steps, ffillPhase, seriesMean, ffillList, ffillAux]

/-- C5: `normalize_series` with the minmax method does not raise in the
degenerate cases: for an empty series it silently returns the Python `None`
sentinel, and for the constant series [5, 5] (max = min, zero denominator)
it silently returns a series whose every cell is undefined (NaN), rather
than surfacing an explicit error. -/
theorem normalize_minmax_degenerate_silent :
    normalize_series_minmax ([] : List ℚ) = NormResult.pyNone ∧
    normalize_series_minmax [5, 5] = NormResult.ok [none, none] ∧
    (∀ msg, normalize_series_minmax [5, 5] ≠ NormResult.raised msg) := by
  refine ⟨rfl, ?_, ?_⟩
  · simp +decide [normalize_series_minmax, safeDiv]
  · intro msg hc
    have h2 : normalize_series_minmax [5, 5] = NormResult.ok [none, none] := by
      simp +decide [normalize_series_minmax, safeDiv]
    rw [h2] at hc
    exact NormResult.noConfusion hc

/-- C6: at every position of the input, the hist column of `macd_all_info`
equals its macd column minus its signal column, exactly, for every choice
of periods. -/
theorem macd_hist_equals_difference (data : List ℚ)
    (fast_period slow_period signal_span i : ℕ) (h : i < data.length) :
    (macd_all_info data fast_period slow_period signal_span).hist.get? i =
      some ((macd_all_info data fast_period slow_period signal_span).macd.getD i 0 -
        (macd_all_info data fast_period slow_period signal_span).signal.getD i 0) := by
  exact zipWith_sub_get? _ _ i
    (by simpa [List.length_zipWith, ewmMean_length] using h)
    (by simpa [List.length_zipWith, ewmMean_length] using h)

/-- C6 witness: position 0 of the series [1, 2] with periods 1, 2, 9. -/
theorem macd_hist_equals_difference_witness :
    (macd_all_info [1, 2] 1 2 9).hist.get? 0 =
      some ((macd_all_info [1, 2] 1 2 9).macd.getD 0 0 -
        (macd_all_info [1, 2] 1 2 9).signal.getD 0 0) :=
  macd_hist_equals_difference [1, 2] 1 2 9 0 (by decide)

/-- C7: positional pair lookup violates its error contract on the container
X=[1,2,3], Y=[2,4,6]: position 5 is out of range yet no error is raised —
the caught IndexError makes the function return the Python `None` default —
and position -1 wraps around to the last pair (3, 6) instead of failing. -/
theorem get_pair_at_index_swallows_and_wraps :
    PairedSet.get_pair_at_index (⟨[1, 2, 3], [2, 4, 6]⟩ : PairedSet ℤ ℤ) 5 = none ∧
    PairedSet.get_pair_at_index (⟨[1, 2, 3], [2, 4, 6]⟩ : PairedSet ℤ ℤ) (-1) =
      some (3, 6) := by
  decide

/-- C8: key lookup never works as claimed.  On the three-pair container of
its own docstring example it raises ValueError (truth value of the
elementwise `self.X == None` comparison), and on a one-pair container whose
key is present it still returns Python `None` instead of the paired value,
because the loop body is a bare `pass`. -/
theorem lookup_value_broken :
    PairedSet.get_corresponding_Yvalue (⟨[3, 11, 10], [110, 108, 101]⟩ : PairedSet ℤ ℤ) 11 =
      Except.error "ValueError: truth value of an array with more than one element is ambiguous" ∧
    PairedSet.get_corresponding_Yvalue (⟨[7], [42]⟩ : PairedSet ℤ ℤ) 7 = Except.ok none := by
  decide

/-- C9: single-pair append violates the claim on both documented argument
shapes.  Appending the two scalar values (4, 8) raises TypeError (the
constructor calls `len` on the scalar) and leaves the container unchanged —
no growth at all — while appending a 1x1 `PairedSet` does extend both
arrays but then still raises TypeError, so the operation never completes
without error and its failure is not free of partial effects. -/
theorem append_single_pair_broken :
    PairedSet.append_single_pair (⟨[1, 2], [5, 6]⟩ : PairedSet ℤ ℤ) (AppendArg.kv 4 8) =
      (⟨[1, 2], [5, 6]⟩, some "TypeError: object of type int has no len()") ∧
    PairedSet.append_single_pair (⟨[1, 2], [5, 6]⟩ : PairedSet ℤ ℤ)
        (AppendArg.ps ⟨[3], [7]⟩) =
      (⟨[1, 2, 3], [5, 6, 7]⟩, some "TypeError: Expected PairedSet or two values.") := by
  decide

/-- C10: for every input series and every fill mode, `fill` leaves the
input series object unchanged: the function copies the series first and
every subsequent write targets only the copy, in both the backward and the
forward paths, whether the call returns a series or raises. -/
theorem fill_preserves_input (series : List (Option ℚ)) (filling_type : String) :
    (fill_steps series filling_type).1.input = series := by
  unfold fill_steps
  dsimp only
  split
  · split
    · rfl
    · split
      · rfl
      · exact ffillPhase_input _ _ _
  · exact ffillPhase_input _ _ _

end CogiQuant
